import Mathlib

/-!
Verification of `frontend/rust-lib/flowy-sidecar/src/core/parser.rs`:
the line-delimited JSON-RPC message reader (`MessageReader::next`,
`MessageReader::parse`) and the typed response extractors
(`ChatResponseParser`, `ChatRelatedQuestionsResponseParser`,
`SimilarityResponseParser`).

JSON values (`serde_json::Value`) are embedded as the inductive `Json`;
JSON numbers are modelled as exact rationals (`serde_json`'s `as_f64`
succeeds on every JSON number, which is all the source relies on).
The source decodes text with `serde_json::from_str`, an external library:
the reader's classification logic is therefore stated parametrically in
the decoder (`from_str : String → Option Json`, `none` = decode error),
and a small concrete decoder `jsonFromStr` is provided so the statements
can be evaluated on concrete inputs.
-/

set_option maxRecDepth 4000

/-- Embedding of `serde_json::Value`: JSON values. Objects are key/value
association lists (serde keeps unique keys; lookup takes the first match). -/
inductive Json where
  | null
  | bool (b : Bool)
  | num (q : Rat)
  | str (s : String)
  | arr (xs : List Json)
  | obj (kvs : List (String × Json))

/-- First-match lookup in an object's key/value list
(embedding of `serde_json::Map::get`). -/
def lookupKey : List (String × Json) → String → Option Json
  | [], _ => none
  | (k, v) :: rest, key => if k == key then some v else lookupKey rest key

/-- `serde_json::Value::is_object`. -/
def Json.is_object : Json → Bool
  | .obj _ => true
  | _ => false

/-- `serde_json::Value::get(key)`: field lookup, `none` when the value is
not an object or the key is absent. -/
def Json.get : Json → String → Option Json
  | .obj kvs, key => lookupKey kvs key
  | _, _ => none

/-- `serde_json::Value::as_str`. -/
def Json.as_str : Json → Option String
  | .str s => some s
  | _ => none

/-- `serde_json::Value::as_array`. -/
def Json.as_array : Json → Option (List Json)
  | .arr xs => some xs
  | _ => none

/-- `serde_json::Value::as_f64`: succeeds exactly on JSON numbers
(modelled exactly, as rationals). -/
def Json.as_f64 : Json → Option Rat
  | .num q => some q
  | _ => none

/-- Modelled from the spec: `std::io::Error`, the transport's own read
error, which the reader propagates unmodified (its internals are opaque
to this core). -/
structure IoError where
  msg : String
deriving DecidableEq

/-- Modelled from the spec: the `ReadError` enum of `flowy-sidecar`'s
`error.rs` (not under `src/`), with the variants `parser.rs` constructs —
a propagated I/O error, `Disconnect` on a zero-byte read, and
`NotObject` carrying the offending line verbatim (spec section 7). -/
inductive ReadError where
  | Io (e : IoError)
  | Disconnect
  | NotObject (s : String)

/-- Modelled from the spec: the `RemoteError` enum of `error.rs` (not
under `src/`): either an invalid response shape carrying the offending
payload, or a transport-reported remote failure (spec section 3). -/
inductive RemoteError where
  | InvalidResponse (json : Json)
  | Transport (msg : String)

/-- Modelled from the spec: `RpcObject`, an opaque wrapper around a JSON
value (`rpc_object.rs`, not under `src/`); `parser.rs` builds it with
`val.into()` and `RpcObject(json!(...))`. -/
structure RpcObject where
  val : Json

/-- `MessageReader(String)`: the reader with its reusable line buffer. -/
structure MessageReader where
  buf : String

/-- `MessageReader::parse`: decode a line as a generic JSON value; a
non-object decode is a `NotObject` error, a decode failure falls back to
the sentinel object `{"message": <text>}`. Parametric in the decoder
`from_str` standing for `serde_json::from_str` (`none` = decode error);
the `&self` receiver is taken but (as in the source) unused. -/
def MessageReader.parse (from_str : String → Option Json) (_self : MessageReader)
    (s : String) : Except ReadError RpcObject :=
  match from_str s with
  | some val =>
    if !val.is_object then
      Except.error (ReadError.NotObject s)
    else
      Except.ok ⟨val⟩
  | none => Except.ok ⟨Json.obj [("message", Json.str s)]⟩

/-- `MessageReader::next`: clear the buffer, perform one `read_line`
(modelled by its outcome `read_line : Except IoError String`, the `ok`
case carrying the chunk appended to the buffer, `""` for a zero-byte
read), fail with `Disconnect` on an empty buffer, otherwise parse the
buffer. Returns the result together with the reader's updated state. -/
def MessageReader.next (from_str : String → Option Json) (self : MessageReader)
    (read_line : Except IoError String) :
    Except ReadError RpcObject × MessageReader :=
  let cleared : MessageReader := { self with buf := "" }
  match read_line with
  | Except.error e => (Except.error (ReadError.Io e), cleared)
  | Except.ok chunk =>
    let filled : MessageReader := { cleared with buf := cleared.buf ++ chunk }
    if filled.buf.isEmpty then
      (Except.error ReadError.Disconnect, filled)
    else
      (filled.parse from_str filled.buf, filled)

/-! A small concrete JSON decoder, standing in for `serde_json::from_str`
when the parametric statements below are instantiated on concrete inputs.
It covers the JSON fragment the spec's examples use: `null`, booleans,
decimal numbers, strings with the common escapes, arrays and objects,
with surrounding whitespace and a trailing-garbage check. -/

/-- JSON insignificant whitespace. -/
def isWsChar (c : Char) : Bool :=
  c = ' ' || c = '\n' || c = '\t' || c = '\r'

/-- Drop leading JSON whitespace. -/
def skipWs : List Char → List Char
  | [] => []
  | c :: cs => if isWsChar c then skipWs cs else c :: cs

/-- Numeric value of a decimal digit character. -/
def digitVal (c : Char) : Option Nat :=
  if '0' ≤ c ∧ c ≤ '9' then some (c.toNat - '0'.toNat) else none

/-- Split a maximal run of decimal digits off the front. -/
def takeDigits : List Char → List Nat × List Char
  | [] => ([], [])
  | c :: cs =>
    match digitVal c with
    | some d =>
      let p := takeDigits cs
      (d :: p.1, p.2)
    | none => ([], c :: cs)

/-- Value of a digit run read most-significant first. -/
def digitsToNat (ds : List Nat) : Nat :=
  ds.foldl (fun a d => a * 10 + d) 0

/-- Decode a JSON number (optional minus, integer part, optional
fraction) as an exact rational. -/
def decodeNumber (cs : List Char) : Option (Rat × List Char) :=
  let p := match cs with
    | '-' :: rest => (true, rest)
    | _ => (false, cs)
  match takeDigits p.2 with
  | ([], _) => none
  | (ds, cs1) =>
    let ip : Rat := (digitsToNat ds : Nat)
    match cs1 with
    | '.' :: cs2 =>
      match takeDigits cs2 with
      | ([], _) => none
      | (ds2, cs3) =>
        let q := ip + (digitsToNat ds2 : Rat) / ((10 : Rat) ^ ds2.length)
        some (if p.1 then -q else q, cs3)
    | _ => some (if p.1 then -ip else ip, cs1)

/-- Decode a JSON string body (after the opening quote), handling the
common escapes. -/
def decodeStringBody : List Char → List Char → Option (String × List Char)
  | [], _ => none
  | '"' :: rest, acc => some (String.mk acc.reverse, rest)
  | '\\' :: c :: rest, acc =>
    match c with
    | '"' => decodeStringBody rest ('"' :: acc)
    | '\\' => decodeStringBody rest ('\\' :: acc)
    | '/' => decodeStringBody rest ('/' :: acc)
    | 'n' => decodeStringBody rest ('\n' :: acc)
    | 't' => decodeStringBody rest ('\t' :: acc)
    | 'r' => decodeStringBody rest ('\r' :: acc)
    | _ => none
  | c :: rest, acc => decodeStringBody rest (c :: acc)

mutual

/-- Decode one JSON value off the front of the input (fuel-indexed). -/
def decodeValue : Nat → List Char → Option (Json × List Char)
  | 0, _ => none
  | Nat.succ fuel, cs =>
    match skipWs cs with
    | 'n' :: 'u' :: 'l' :: 'l' :: rest => some (Json.null, rest)
    | 't' :: 'r' :: 'u' :: 'e' :: rest => some (Json.bool true, rest)
    | 'f' :: 'a' :: 'l' :: 's' :: 'e' :: rest => some (Json.bool false, rest)
    | '"' :: rest => (decodeStringBody rest []).map (fun p => (Json.str p.1, p.2))
    | '[' :: rest =>
      match skipWs rest with
      | ']' :: rest2 => some (Json.arr [], rest2)
      | rest2 => (decodeArrayItems fuel rest2).map (fun p => (Json.arr p.1, p.2))
    | '\x7b' :: rest =>
      match skipWs rest with
      | '\x7d' :: rest2 => some (Json.obj [], rest2)
      | rest2 => (decodeObjectItems fuel rest2).map (fun p => (Json.obj p.1, p.2))
    | cs2 => (decodeNumber cs2).map (fun p => (Json.num p.1, p.2))

/-- Decode the comma-separated items of a non-empty array, up to and
including the closing bracket. -/
def decodeArrayItems : Nat → List Char → Option (List Json × List Char)
  | 0, _ => none
  | Nat.succ fuel, cs =>
    match decodeValue fuel cs with
    | none => none
    | some (v, rest) =>
      match skipWs rest with
      | ',' :: rest2 => (decodeArrayItems fuel rest2).map (fun p => (v :: p.1, p.2))
      | ']' :: rest2 => some ([v], rest2)
      | _ => none

/-- Decode the comma-separated entries of a non-empty object, up to and
including the closing brace. -/
def decodeObjectItems : Nat → List Char → Option (List (String × Json) × List Char)
  | 0, _ => none
  | Nat.succ fuel, cs =>
    match skipWs cs with
    | '"' :: rest =>
      match decodeStringBody rest [] with
      | none => none
      | some (k, rest2) =>
        match skipWs rest2 with
        | ':' :: rest3 =>
          match decodeValue fuel rest3 with
          | none => none
          | some (v, rest4) =>
            match skipWs rest4 with
            | ',' :: rest5 =>
              (decodeObjectItems fuel rest5).map (fun p => ((k, v) :: p.1, p.2))
            | '\x7d' :: rest5 => some ([(k, v)], rest5)
            | _ => none
        | _ => none
    | _ => none

end

/-- Concrete JSON decoder over whole strings: one JSON document with
optional surrounding whitespace, `none` on any malformed input.
Stands in for `serde_json::from_str` in concrete instantiations. -/
def jsonFromStr (s : String) : Option Json :=
  match decodeValue (2 * s.length + 2) s.data with
  | some (v, rest) => if (skipWs rest).isEmpty then some v else none
  | none => none

/-- `ChatResponseParser::parse_response`: the payload must be an object
whose `data` field is a JSON string; every other shape is
`InvalidResponse` carrying the whole payload. -/
def ChatResponseParser.parse_response (json : Json) : Except RemoteError String :=
  if json.is_object then
    match json.get "data" with
    | some data =>
      match data.as_str with
      | some message => Except.ok message
      | none => Except.error (RemoteError.InvalidResponse json)
    | none => Except.error (RemoteError.InvalidResponse json)
  else
    Except.error (RemoteError.InvalidResponse json)

/-- `ChatRelatedQuestionsResponseParser::parse_response`: the payload
must be an object whose `data` field is a JSON array; returns the
elements unchanged, otherwise `InvalidResponse` with the payload. -/
def ChatRelatedQuestionsResponseParser.parse_response (json : Json) :
    Except RemoteError (List Json) :=
  if json.is_object then
    match json.get "data" with
    | some data =>
      match data.as_array with
      | some values => Except.ok values
      | none => Except.error (RemoteError.InvalidResponse json)
    | none => Except.error (RemoteError.InvalidResponse json)
  else
    Except.error (RemoteError.InvalidResponse json)

/-- `SimilarityResponseParser::parse_response`: the payload must be an
object whose `data` field has a numeric `score` field
(`data.get("score").and_then(|v| v.as_f64())`); otherwise
`InvalidResponse` with the payload. -/
def SimilarityResponseParser.parse_response (json : Json) : Except RemoteError Rat :=
  if json.is_object then
    match json.get "data" with
    | some data =>
      match (data.get "score").bind Json.as_f64 with
      | some score => Except.ok score
      | none => Except.error (RemoteError.InvalidResponse json)
    | none => Except.error (RemoteError.InvalidResponse json)
  else
    Except.error (RemoteError.InvalidResponse json)

/-! Helper lemmas shared by the claim theorems. -/

lemma string_nil_append (s : String) : "" ++ s = s := rfl

lemma Json.as_str_eq_some (j : Json) (s : String) :
    j.as_str = some s ↔ j = Json.str s := by
  cases j <;> simp [Json.as_str]

lemma Json.as_array_eq_some (j : Json) (xs : List Json) :
    j.as_array = some xs ↔ j = Json.arr xs := by
  cases j <;> simp [Json.as_array]

lemma Json.as_f64_eq_some (j : Json) (q : Rat) :
    j.as_f64 = some q ↔ j = Json.num q := by
  cases j <;> simp [Json.as_f64]

lemma Json.get_some_is_object (j : Json) (k : String) (v : Json)
    (h : j.get k = some v) : j.is_object = true := by
  cases j <;> simp_all [Json.get, Json.is_object]

/-- `parse` yields either a wrapped object or `NotObject` with the
original text: never `Disconnect`, never an I/O error. -/
lemma parse_result_cases (fs : String → Option Json) (r : MessageReader) (s : String) :
    (∃ o, MessageReader.parse fs r s = Except.ok o) ∨
      MessageReader.parse fs r s = Except.error (ReadError.NotObject s) := by
  unfold MessageReader.parse
  cases h : fs s with
  | none => exact Or.inl ⟨_, rfl⟩
  | some v =>
    cases hv : v.is_object with
    | true => exact Or.inl ⟨⟨v⟩, by simp [hv]⟩
    | false => exact Or.inr (by simp [hv])

lemma next_read_error (fs : String → Option Json) (r : MessageReader) (e : IoError) :
    MessageReader.next fs r (Except.error e) =
      (Except.error (ReadError.Io e), ⟨""⟩) := rfl

lemma next_empty_read (fs : String → Option Json) (r : MessageReader) :
    MessageReader.next fs r (Except.ok "") =
      (Except.error ReadError.Disconnect, ⟨""⟩) := rfl

/-- On a non-empty line, `next` hands exactly the line read (terminator
included) to `parse`, with the buffer holding that line. -/
lemma next_ok_nonempty (fs : String → Option Json) (r : MessageReader)
    (chunk : String) (h : chunk ≠ "") :
    MessageReader.next fs r (Except.ok chunk) =
      (MessageReader.parse fs ⟨chunk⟩ chunk, ⟨chunk⟩) := by
  unfold MessageReader.next
  simp only [string_nil_append]
  rw [if_neg]
  simp [String.isEmpty_iff, h]

/-- `ChatResponseParser` yields either an extracted string or
`InvalidResponse` carrying the whole payload. -/
lemma chat_result_cases (json : Json) :
    (∃ s, ChatResponseParser.parse_response json = Except.ok s) ∨
      ChatResponseParser.parse_response json =
        Except.error (RemoteError.InvalidResponse json) := by
  unfold ChatResponseParser.parse_response
  cases hobj : json.is_object with
  | false => simp
  | true =>
    cases hd : json.get "data" with
    | none => simp
    | some data =>
      cases hs : data.as_str with
      | none => simp [hs]
      | some m => exact Or.inl ⟨m, by simp [hs]⟩

/-- Success characterization of `ChatResponseParser::parse_response`. -/
lemma chat_ok_iff (json : Json) (s : String) :
    ChatResponseParser.parse_response json = Except.ok s ↔
      json.is_object = true ∧ json.get "data" = some (Json.str s) := by
  unfold ChatResponseParser.parse_response
  cases hobj : json.is_object with
  | false => simp
  | true =>
    cases hd : json.get "data" with
    | none => simp
    | some data =>
      cases hs : data.as_str with
      | none =>
        have hne : data ≠ Json.str s := by
          intro h
          rw [h] at hs
          simp [Json.as_str] at hs
        simp [hs, hne]
      | some m =>
        have hm : data = Json.str m := (Json.as_str_eq_some data m).1 hs
        subst hm
        simp [Json.as_str]

/-- `ChatRelatedQuestionsResponseParser` yields either the extracted
elements or `InvalidResponse` carrying the whole payload. -/
lemma related_result_cases (json : Json) :
    (∃ xs, ChatRelatedQuestionsResponseParser.parse_response json = Except.ok xs) ∨
      ChatRelatedQuestionsResponseParser.parse_response json =
        Except.error (RemoteError.InvalidResponse json) := by
  unfold ChatRelatedQuestionsResponseParser.parse_response
  cases hobj : json.is_object with
  | false => simp
  | true =>
    cases hd : json.get "data" with
    | none => simp
    | some data =>
      cases ha : data.as_array with
      | none => simp [ha]
      | some xs => exact Or.inl ⟨xs, by simp [ha]⟩

/-- Success characterization of
`ChatRelatedQuestionsResponseParser::parse_response`. -/
lemma related_ok_iff (json : Json) (xs : List Json) :
    ChatRelatedQuestionsResponseParser.parse_response json = Except.ok xs ↔
      json.is_object = true ∧ json.get "data" = some (Json.arr xs) := by
  unfold ChatRelatedQuestionsResponseParser.parse_response
  cases hobj : json.is_object with
  | false => simp
  | true =>
    cases hd : json.get "data" with
    | none => simp
    | some data =>
      cases ha : data.as_array with
      | none =>
        have hne : data ≠ Json.arr xs := by
          intro h
          rw [h] at ha
          simp [Json.as_array] at ha
        simp [ha, hne]
      | some ys =>
        have hy : data = Json.arr ys := (Json.as_array_eq_some data ys).1 ha
        subst hy
        simp [Json.as_array]

/-- `SimilarityResponseParser` yields either an extracted score or
`InvalidResponse` carrying the whole payload. -/
lemma similarity_result_cases (json : Json) :
    (∃ x, SimilarityResponseParser.parse_response json = Except.ok x) ∨
      SimilarityResponseParser.parse_response json =
        Except.error (RemoteError.InvalidResponse json) := by
  unfold SimilarityResponseParser.parse_response
  cases hobj : json.is_object with
  | false => simp
  | true =>
    cases hd : json.get "data" with
    | none => simp
    | some data =>
      cases hb : (data.get "score").bind Json.as_f64 with
      | none => simp [hb]
      | some q => exact Or.inl ⟨q, by simp [hb]⟩

/-- Success characterization of
`SimilarityResponseParser::parse_response`: the payload is an object, its
`data` field is itself an object, and that object's `score` field is the
extracted number. -/
lemma similarity_ok_iff (json : Json) (x : Rat) :
    SimilarityResponseParser.parse_response json = Except.ok x ↔
      json.is_object = true ∧ ∃ d, json.get "data" = some d ∧
        d.is_object = true ∧ d.get "score" = some (Json.num x) := by
  unfold SimilarityResponseParser.parse_response
  cases hobj : json.is_object with
  | false => simp
  | true =>
    cases hd : json.get "data" with
    | none => simp
    | some data =>
      cases hb : (data.get "score").bind Json.as_f64 with
      | none =>
        have hne : data.get "score" ≠ some (Json.num x) := by
          intro h
          rw [Option.bind_eq_none] at hb
          have h2 := hb (Json.num x) h
          simp [Json.as_f64] at h2
        simp only [hb]
        constructor
        · intro h
          cases h
        · rintro ⟨-, d, hdd, -, hsc⟩
          cases hdd
          exact absurd hsc hne
      | some q =>
        obtain ⟨v, hv1, hv2⟩ := Option.bind_eq_some.mp hb
        rw [Json.as_f64_eq_some] at hv2
        subst hv2
        have hdo := Json.get_some_is_object data "score" _ hv1
        simp only [hb]
        constructor
        · intro h
          have hqx : q = x := by
            injection h
          subst hqx
          exact ⟨trivial, data, rfl, hdo, hv1⟩
        · rintro ⟨-, d, hdd, -, hsc⟩
          cases hdd
          rw [hv1] at hsc
          injection hsc with h3
          injection h3 with h4
          rw [h4]
          rfl

/-! The claim theorems. -/

/-- C1: for every input text on which JSON decoding fails entirely,
`MessageReader::parse` does not fail: it returns `Ok` with an `RpcObject`
wrapping the sentinel object `{"message": <original text>}`, whose
`message` field is exactly the input text. -/
theorem parse_non_json_falls_back_to_sentinel
    (from_str : String → Option Json) (r : MessageReader) (s : String)
    (h : from_str s = none) :
    MessageReader.parse from_str r s =
      Except.ok ⟨Json.obj [("message", Json.str s)]⟩ := by
  simp [MessageReader.parse, h]

/-- Witness for C1 at the spec's example `not json here`, which the
concrete decoder rejects. -/
theorem parse_non_json_falls_back_to_sentinel_witness :
    jsonFromStr "not json here" = none ∧
    MessageReader.parse jsonFromStr ⟨""⟩ "not json here" =
      Except.ok ⟨Json.obj [("message", Json.str "not json here")]⟩ :=
  ⟨rfl, parse_non_json_falls_back_to_sentinel jsonFromStr ⟨""⟩ "not json here" rfl⟩

/-- C2: `MessageReader::next` fails with `Disconnect` exactly when the
read yields zero bytes; a failing read propagates as an I/O error
unmodified; and `Disconnect` is distinguishable from every
parse-classification outcome (`parse` never produces `Disconnect`, nor an
I/O error). -/
theorem next_disconnect_iff_empty_read
    (from_str : String → Option Json) (r : MessageReader) :
    (MessageReader.next from_str r (Except.ok "")).1 =
        Except.error ReadError.Disconnect ∧
    (∀ e, (MessageReader.next from_str r (Except.error e)).1 =
        Except.error (ReadError.Io e)) ∧
    (∀ chunk, (MessageReader.next from_str r (Except.ok chunk)).1 =
        Except.error ReadError.Disconnect → chunk = "") ∧
    (∀ s, MessageReader.parse from_str r s ≠ Except.error ReadError.Disconnect) ∧
    (∀ s e, MessageReader.parse from_str r s ≠ Except.error (ReadError.Io e)) := by
  have hparse : ∀ s, (∃ o, MessageReader.parse from_str r s = Except.ok o) ∨
      MessageReader.parse from_str r s = Except.error (ReadError.NotObject s) :=
    fun s => parse_result_cases from_str r s
  refine ⟨by rw [next_empty_read], fun e => by rw [next_read_error], ?_, ?_, ?_⟩
  · intro chunk h
    by_cases hc : chunk = ""
    · exact hc
    · rw [next_ok_nonempty from_str r chunk hc] at h
      rcases hparse chunk with ⟨o, ho⟩ | ho
      · rw [show MessageReader.parse from_str r chunk =
              MessageReader.parse from_str ⟨chunk⟩ chunk from rfl] at ho
        rw [ho] at h
        cases h
      · rw [show MessageReader.parse from_str r chunk =
              MessageReader.parse from_str ⟨chunk⟩ chunk from rfl] at ho
        rw [ho] at h
        cases h
  · intro s h
    rcases hparse s with ⟨o, ho⟩ | ho <;> rw [ho] at h <;> cases h
  · intro s e h
    rcases hparse s with ⟨o, ho⟩ | ho <;> rw [ho] at h <;> cases h

/-- Witness for C2: an empty read on the concrete decoder fails with
`Disconnect`. -/
theorem next_disconnect_iff_empty_read_witness :
    (MessageReader.next jsonFromStr ⟨""⟩ (Except.ok "")).1 =
      Except.error ReadError.Disconnect :=
  (next_disconnect_iff_empty_read jsonFromStr ⟨""⟩).1

/-- C3: for every input text that decodes as valid JSON whose top-level
value is not an object, `MessageReader::parse` fails with `NotObject`
carrying the original input text verbatim. -/
theorem parse_valid_non_object_fails_not_object
    (from_str : String → Option Json) (r : MessageReader) (s : String)
    (v : Json) (h1 : from_str s = some v) (h2 : v.is_object = false) :
    MessageReader.parse from_str r s = Except.error (ReadError.NotObject s) := by
  simp [MessageReader.parse, h1, h2]

/-- Witness for C3 at the spec's example `[1,2,3]`, which decodes to a
JSON array. -/
theorem parse_valid_non_object_fails_not_object_witness :
    jsonFromStr "[1,2,3]" = some (Json.arr [Json.num 1, Json.num 2, Json.num 3]) ∧
    MessageReader.parse jsonFromStr ⟨""⟩ "[1,2,3]" =
      Except.error (ReadError.NotObject "[1,2,3]") :=
  ⟨rfl, parse_valid_non_object_fails_not_object jsonFromStr ⟨""⟩ "[1,2,3]"
    (Json.arr [Json.num 1, Json.num 2, Json.num 3]) rfl rfl⟩

/-- C4: for every input text that decodes as valid JSON whose top-level
value is an object, `MessageReader::parse` returns `Ok` with an
`RpcObject` wrapping exactly that decoded object. -/
theorem parse_object_wraps_decoded_object
    (from_str : String → Option Json) (r : MessageReader) (s : String)
    (v : Json) (h1 : from_str s = some v) (h2 : v.is_object = true) :
    MessageReader.parse from_str r s = Except.ok ⟨v⟩ := by
  simp [MessageReader.parse, h1, h2]

/-- Witness for C4 on a small concrete object line. -/
theorem parse_object_wraps_decoded_object_witness :
    jsonFromStr "\x7b\x22a\x22:1\x7d" = some (Json.obj [("a", Json.num 1)]) ∧
    MessageReader.parse jsonFromStr ⟨""⟩ "\x7b\x22a\x22:1\x7d" =
      Except.ok ⟨Json.obj [("a", Json.num 1)]⟩ :=
  ⟨rfl, parse_object_wraps_decoded_object jsonFromStr ⟨""⟩ "\x7b\x22a\x22:1\x7d"
    (Json.obj [("a", Json.num 1)]) rfl rfl⟩

/-- C5: `ChatResponseParser::parse_response` returns `Ok s` exactly when
the payload is a JSON object whose `data` field is the JSON string `s`;
in every other case it fails with `InvalidResponse` carrying the full
offending payload. Includes the spec's examples: `{"data": "hello"}`
yields `"hello"`, `{"data": [1,2,3]}` and `{}` fail. -/
theorem chat_parse_response_spec (json : Json) :
    (∀ s, ChatResponseParser.parse_response json = Except.ok s ↔
      json.is_object = true ∧ json.get "data" = some (Json.str s)) ∧
    ((∀ s, ¬(json.is_object = true ∧ json.get "data" = some (Json.str s))) →
      ChatResponseParser.parse_response json =
        Except.error (RemoteError.InvalidResponse json)) ∧
    ChatResponseParser.parse_response (Json.obj [("data", Json.str "hello")]) =
      Except.ok "hello" ∧
    ChatResponseParser.parse_response
        (Json.obj [("data", Json.arr [Json.num 1, Json.num 2, Json.num 3])]) =
      Except.error (RemoteError.InvalidResponse
        (Json.obj [("data", Json.arr [Json.num 1, Json.num 2, Json.num 3])])) ∧
    ChatResponseParser.parse_response (Json.obj []) =
      Except.error (RemoteError.InvalidResponse (Json.obj [])) := by
  refine ⟨fun s => chat_ok_iff json s, ?_, rfl, rfl, rfl⟩
  intro h
  rcases chat_result_cases json with ⟨s, hs⟩ | he
  · exact absurd ((chat_ok_iff json s).1 hs) (h s)
  · exact he

/-- Witness for C5: the `{"data": "hello"}` success instance, obtained
from the characterization. -/
theorem chat_parse_response_spec_witness :
    ChatResponseParser.parse_response (Json.obj [("data", Json.str "hello")]) =
      Except.ok "hello" :=
  ((chat_parse_response_spec (Json.obj [("data", Json.str "hello")])).1 "hello").2
    ⟨rfl, rfl⟩

/-- C6: `SimilarityResponseParser::parse_response` returns `Ok x` exactly
when the payload is a JSON object whose `data` field is an object with a
numeric `score` field of value `x`; otherwise it fails with
`InvalidResponse` carrying the full payload. Includes the spec's
examples: `{"data": {"score": 0.87}}` yields `0.87`, and
`{"data": {"score": "x"}}` fails. -/
theorem similarity_parse_response_spec (json : Json) :
    (∀ x : Rat, SimilarityResponseParser.parse_response json = Except.ok x ↔
      json.is_object = true ∧ ∃ d, json.get "data" = some d ∧
        d.is_object = true ∧ d.get "score" = some (Json.num x)) ∧
    ((∀ x : Rat, ¬(json.is_object = true ∧ ∃ d, json.get "data" = some d ∧
        d.is_object = true ∧ d.get "score" = some (Json.num x))) →
      SimilarityResponseParser.parse_response json =
        Except.error (RemoteError.InvalidResponse json)) ∧
    SimilarityResponseParser.parse_response
        (Json.obj [("data", Json.obj [("score", Json.num (87/100))])]) =
      Except.ok (87/100) ∧
    SimilarityResponseParser.parse_response
        (Json.obj [("data", Json.obj [("score", Json.str "x")])]) =
      Except.error (RemoteError.InvalidResponse
        (Json.obj [("data", Json.obj [("score", Json.str "x")])])) := by
  refine ⟨fun x => similarity_ok_iff json x, ?_, rfl, rfl⟩
  intro h
  rcases similarity_result_cases json with ⟨x, hx⟩ | he
  · exact absurd ((similarity_ok_iff json x).1 hx) (h x)
  · exact he

/-- Witness for C6: the `{"data": {"score": 0.87}}` success instance,
obtained from the characterization. -/
theorem similarity_parse_response_spec_witness :
    SimilarityResponseParser.parse_response
        (Json.obj [("data", Json.obj [("score", Json.num (87/100))])]) =
      Except.ok (87/100) :=
  ((similarity_parse_response_spec
      (Json.obj [("data", Json.obj [("score", Json.num (87/100))])])).1 (87/100)).2
    ⟨rfl, Json.obj [("score", Json.num (87/100))], rfl, rfl, rfl⟩

/-- C7: `ChatRelatedQuestionsResponseParser::parse_response` returns `Ok`
with exactly the array's elements, in order and unvalidated, exactly when
the payload is a JSON object whose `data` field is a JSON array;
otherwise it fails with `InvalidResponse` carrying the full payload.
Includes the spec's example `{"data": [1, "a", true]}`. -/
theorem related_questions_parse_response_spec (json : Json) :
    (∀ xs, ChatRelatedQuestionsResponseParser.parse_response json = Except.ok xs ↔
      json.is_object = true ∧ json.get "data" = some (Json.arr xs)) ∧
    ((∀ xs, ¬(json.is_object = true ∧ json.get "data" = some (Json.arr xs))) →
      ChatRelatedQuestionsResponseParser.parse_response json =
        Except.error (RemoteError.InvalidResponse json)) ∧
    ChatRelatedQuestionsResponseParser.parse_response
        (Json.obj [("data", Json.arr [Json.num 1, Json.str "a", Json.bool true])]) =
      Except.ok [Json.num 1, Json.str "a", Json.bool true] := by
  refine ⟨fun xs => related_ok_iff json xs, ?_, rfl⟩
  intro h
  rcases related_result_cases json with ⟨xs, hxs⟩ | he
  · exact absurd ((related_ok_iff json xs).1 hxs) (h xs)
  · exact he

/-- Witness for C7: the `{"data": [1, "a", true]}` success instance,
obtained from the characterization. -/
theorem related_questions_parse_response_spec_witness :
    ChatRelatedQuestionsResponseParser.parse_response
        (Json.obj [("data", Json.arr [Json.num 1, Json.str "a", Json.bool true])]) =
      Except.ok [Json.num 1, Json.str "a", Json.bool true] :=
  ((related_questions_parse_response_spec
      (Json.obj [("data", Json.arr [Json.num 1, Json.str "a", Json.bool true])])).1
    [Json.num 1, Json.str "a", Json.bool true]).2 ⟨rfl, rfl⟩

/-- C8: whenever `MessageReader::parse` (and hence `MessageReader::next`)
returns `Ok`, the JSON value wrapped by the returned `RpcObject` is a
JSON object — on both the decoded-object path and the sentinel-fallback
path. -/
theorem rpc_object_wraps_only_objects
    (from_str : String → Option Json) (r : MessageReader) :
    (∀ s o, MessageReader.parse from_str r s = Except.ok o →
      o.val.is_object = true) ∧
    (∀ rd o st, MessageReader.next from_str r rd = (Except.ok o, st) →
      o.val.is_object = true) := by
  have hp : ∀ (rr : MessageReader) s o,
      MessageReader.parse from_str rr s = Except.ok o → o.val.is_object = true := by
    intro rr s o h
    obtain ⟨w⟩ := o
    unfold MessageReader.parse at h
    cases hd : from_str s with
    | none =>
      rw [hd] at h
      injection h with h2
      injection h2 with h3
      rw [← h3]
      rfl
    | some v =>
      rw [hd] at h
      cases hv : v.is_object with
      | false => simp [hv] at h
      | true =>
        simp [hv] at h
        subst h
        exact hv
  refine ⟨hp r, ?_⟩
  intro rd o st h
  cases rd with
  | error e =>
    rw [next_read_error] at h
    have h2 := congrArg Prod.fst h
    simp at h2
  | ok chunk =>
    by_cases hc : chunk = ""
    · subst hc
      rw [next_empty_read] at h
      have h2 := congrArg Prod.fst h
      simp at h2
    · rw [next_ok_nonempty from_str r chunk hc] at h
      exact hp ⟨chunk⟩ chunk o (congrArg Prod.fst h)

/-- Witness for C8: the object line from C4's setting, checked through
the theorem at a concrete decoded input. -/
theorem rpc_object_wraps_only_objects_witness :
    (RpcObject.mk (Json.obj [("a", Json.num 1)])).val.is_object = true :=
  (rpc_object_wraps_only_objects jsonFromStr ⟨""⟩).1 "\x7b\x22a\x22:1\x7d"
    ⟨Json.obj [("a", Json.num 1)]⟩ rfl

/-- C9: a non-empty whitespace-only line (e.g. just `"\n"`) is neither a
`Disconnect` nor a parse error: `next` returns the sentinel object
`{"message": <text>}` with the line terminator kept; in general the text
`next` hands to `parse` is exactly the line read, terminator included. -/
theorem next_whitespace_line_yields_sentinel
    (from_str : String → Option Json) (r : MessageReader) (s : String)
    (hne : s ≠ "") :
    (MessageReader.next from_str r (Except.ok s)).1 =
        MessageReader.parse from_str ⟨s⟩ s ∧
    (from_str s = none →
      (MessageReader.next from_str r (Except.ok s)).1 =
          Except.ok ⟨Json.obj [("message", Json.str s)]⟩ ∧
      (MessageReader.next from_str r (Except.ok s)).1 ≠
          Except.error ReadError.Disconnect ∧
      ∀ t, (MessageReader.next from_str r (Except.ok s)).1 ≠
          Except.error (ReadError.NotObject t)) := by
  have h1 : MessageReader.next from_str r (Except.ok s) =
      (MessageReader.parse from_str ⟨s⟩ s, ⟨s⟩) :=
    next_ok_nonempty from_str r s hne
  refine ⟨by rw [h1], ?_⟩
  intro hn
  have h2 : MessageReader.parse from_str ⟨s⟩ s =
      Except.ok ⟨Json.obj [("message", Json.str s)]⟩ := by
    simp [MessageReader.parse, hn]
  refine ⟨by rw [h1, h2], ?_, ?_⟩
  · rw [h1]
    simp only
    rw [h2]
    intro hcon
    cases hcon
  · intro t
    rw [h1]
    simp only
    rw [h2]
    intro hcon
    cases hcon

/-- Witness for C9 on the bare-newline line, which the concrete decoder
rejects as JSON. -/
theorem next_whitespace_line_yields_sentinel_witness :
    (MessageReader.next jsonFromStr ⟨""⟩ (Except.ok "\n")).1 =
      Except.ok ⟨Json.obj [("message", Json.str "\n")]⟩ :=
  ((next_whitespace_line_yields_sentinel jsonFromStr ⟨""⟩ "\n" (by decide)).2
    rfl).1

/-- C10: `MessageReader::parse` is pure: its result does not depend on
the reader state at all (so equal — indeed arbitrary — reader states give
structurally equal results, and repeated calls on the same text agree),
and taking the receiver immutably it leaves no observable state change. -/
theorem parse_deterministic_idempotent
    (from_str : String → Option Json) (r₁ r₂ : MessageReader) (s : String) :
    MessageReader.parse from_str r₁ s = MessageReader.parse from_str r₂ s := rfl
